import Mathlib

/-!
Verification development for the air-quality monitor repository
(`monitor.py`, `analyse.py`, `display.py`).  Python floats are modelled
as real numbers where transcendental functions occur (`exp`, `log`) and
as rationals elsewhere; Python `int(x)` is truncation toward zero;
`collections.deque(maxlen=N)` is a list that drops its oldest element
on overflow; a raised exception is modelled by an explicit flag or
`Option`.
-/

namespace AirAnalyser

/-- Python `int(x)` applied to a float: truncation toward zero. -/
def truncToInt {α : Type} [LinearOrderedField α] [FloorRing α] (x : α) : ℤ :=
  if 0 ≤ x then ⌊x⌋ else ⌈x⌉

/-- `AirQualityMonitor._calculate_absolute_humidity` from `monitor.py`
lines 124-130 (identical in `analyse.py` lines 161-168):
`temp_k = temperature + 273.15`;
`pvs = 6.112 * np.exp((17.62 * temperature) / (243.12 + temperature))`;
`abs_humidity = (relative_humidity * pvs * 2.1674) / temp_k`;
`return int(abs_humidity * 256)`. -/
noncomputable def calculate_absolute_humidity (temperature relative_humidity : ℝ) : ℤ :=
  let temp_k : ℝ := temperature + 273.15
  let pvs : ℝ := 6.112 * Real.exp ((17.62 * temperature) / (243.12 + temperature))
  let abs_humidity : ℝ := (relative_humidity * pvs * 2.1674) / temp_k
  truncToInt (abs_humidity * 256)

/-- Reference definition written from the spec's words (section 4.3 step 4):
`pvs = 6.112 * exp(17.62*T / (243.12+T))`;
`abs_humidity_g_m3 = humidity * pvs * 2.1674 / (T + 273.15)`;
encoded as 8.8 fixed point by multiplying by 256 and truncating. -/
noncomputable def absHumiditySpecRef (T RH : ℝ) : ℤ :=
  truncToInt (256 * (RH * (6.112 * Real.exp ((17.62 * T) / (243.12 + T))) * 2.1674 / (T + 273.15)))

lemma calculate_absolute_humidity_eq_specRef (T RH : ℝ) :
    calculate_absolute_humidity T RH = absHumiditySpecRef T RH := by
  unfold calculate_absolute_humidity absHumiditySpecRef
  have harg :
      RH * (6.112 * Real.exp ((17.62 * T) / (243.12 + T))) * 2.1674 / (T + 273.15) * 256 =
      256 * (RH * (6.112 * Real.exp ((17.62 * T) / (243.12 + T))) * 2.1674 / (T + 273.15)) := by
    ring
  simp only [harg]

/-- Claim C1: for every temperature `T` and relative humidity `RH`, the
absolute-humidity compensation function of the code equals the integer
truncation of `256 * (RH * pvs * 2.1674 / (T + 273.15))` with
`pvs = 6.112 * exp(17.62*T / (243.12+T))`, i.e. the reference definition
of the spec's formula encoded as 8.8 fixed point. -/
theorem c1_absolute_humidity_matches_spec (T RH : ℝ) :
    calculate_absolute_humidity T RH = absHumiditySpecRef T RH :=
  calculate_absolute_humidity_eq_specRef T RH

/-- One append to a Python `collections.deque(maxlen=maxlen)`: the new
element goes to the right and, if the deque is full, the oldest (leftmost)
element is discarded.  (`maxlen = 0` keeps the deque empty, as in Python.) -/
def dequeAppend {α : Type} (maxlen : ℕ) (buf : List α) (x : α) : List α :=
  (buf ++ [x]).drop (buf.length + 1 - maxlen)

/-- The `AirQualityReading` NamedTuple (`monitor.py` lines 16-25,
`analyse.py` lines 25-36). -/
structure AirQualityReading where
  temperature : ℚ
  humidity : ℚ
  co2 : ℤ
  tvoc : ℤ
  eco2 : ℤ
  pm10 : ℚ
  pm25 : ℚ
  pm100 : ℚ
  timestamp : ℚ
deriving DecidableEq

/-- State of a `DataHistory` object (`monitor.py` lines 28-88,
`analyse.py` lines 39-102): one bounded deque per field plus the CSV
log, whose rows are projections of accepted readings. -/
structure DataHistory where
  max_history : ℕ
  temperature : List ℚ
  humidity : List ℚ
  co2 : List ℤ
  tvoc : List ℤ
  eco2 : List ℤ
  pm10 : List ℚ
  pm25 : List ℚ
  pm100 : List ℚ
  timestamps : List ℚ
  csv_rows : List AirQualityReading
deriving DecidableEq

/-- A freshly constructed `DataHistory(max_history)`: all deques empty,
CSV file created with only its header row. -/
def DataHistory.init (max_history : ℕ) : DataHistory :=
  ⟨max_history, [], [], [], [], [], [], [], [], [], []⟩

/-- `DataHistory.add_reading` (`monitor.py` lines 63-88, `analyse.py`
lines 74-102): first every deque is appended to, then one CSV row is
written.  The caller-supplied `write_ok` flag is the outcome of the
file write (`False` = the `open`/`writerow` raises, e.g. disk full);
the returned Boolean is whether an exception propagates to the caller.
The deque appends happen before the write, so they are kept either way;
on a failed write no CSV row is produced. -/
def DataHistory.add_reading (h : DataHistory) (reading : AirQualityReading)
    (write_ok : Bool) : DataHistory × Bool :=
  let h2 : DataHistory :=
    { h with
      temperature := dequeAppend h.max_history h.temperature reading.temperature
      humidity := dequeAppend h.max_history h.humidity reading.humidity
      co2 := dequeAppend h.max_history h.co2 reading.co2
      tvoc := dequeAppend h.max_history h.tvoc reading.tvoc
      eco2 := dequeAppend h.max_history h.eco2 reading.eco2
      pm10 := dequeAppend h.max_history h.pm10 reading.pm10
      pm25 := dequeAppend h.max_history h.pm25 reading.pm25
      pm100 := dequeAppend h.max_history h.pm100 reading.pm100
      timestamps := dequeAppend h.max_history h.timestamps reading.timestamp }
  if write_ok then ({ h2 with csv_rows := h2.csv_rows ++ [reading] }, false)
  else (h2, true)

/-- A sequence of successful `add_reading` calls. -/
def recordMany (h : DataHistory) (rs : List AirQualityReading) : DataHistory :=
  rs.foldl (fun acc r => (acc.add_reading r true).1) h

/-- Recording a list of readings into a fresh history of capacity `cap`. -/
def recordAll (cap : ℕ) (rs : List AirQualityReading) : DataHistory :=
  recordMany (DataHistory.init cap) rs

lemma dequeAppend_eq (maxlen : ℕ) (buf : List α) (x : α) :
    dequeAppend maxlen buf x = (buf ++ [x]).drop (buf.length + 1 - maxlen) := rfl

/-- Folding deque appends over a list keeps exactly the most recent
`maxlen` of all elements ever inserted (provided the starting deque is
within capacity, as every reachable deque is). -/
lemma foldl_dequeAppend (maxlen : ℕ) :
    ∀ (xs : List α) (init : List α), init.length ≤ maxlen →
      List.foldl (dequeAppend maxlen) init xs =
        (init ++ xs).drop (init.length + xs.length - maxlen) := by
  intro xs
  induction xs with
  | nil =>
    intro init hinit
    simp only [List.foldl_nil, List.append_nil, List.length_nil, Nat.add_zero,
      Nat.sub_eq_zero_of_le hinit, List.drop_zero]
  | cons x xs ih =>
    intro init hinit
    have hlen1 : (dequeAppend maxlen init x).length =
        init.length + 1 - (init.length + 1 - maxlen) := by
      simp [dequeAppend, List.length_drop]
    have hle : (dequeAppend maxlen init x).length ≤ maxlen := by omega
    rw [List.foldl_cons, ih _ hle, hlen1, dequeAppend_eq]
    rw [← @List.drop_append_of_le_length _ (init ++ [x]) xs _ (by simp)]
    rw [List.drop_drop]
    have harith : init.length + 1 - maxlen +
        (init.length + 1 - (init.length + 1 - maxlen) + xs.length - maxlen) =
        init.length + (x :: xs).length - maxlen := by
      simp only [List.length_cons]
      omega
    rw [harith]
    have hassoc : init ++ [x] ++ xs = init ++ x :: xs := by simp
    rw [hassoc]

lemma add_reading_max_history (h : DataHistory) (r : AirQualityReading) (ok : Bool) :
    ((h.add_reading r ok).1).max_history = h.max_history := by
  cases ok <;> rfl

/-- Generic per-field projection of `recordMany` to a fold of deque appends. -/
lemma recordMany_proj {α : Type} (g : DataHistory → List α) (f : AirQualityReading → α)
    (hg : ∀ (h : DataHistory) (r : AirQualityReading),
      g ((h.add_reading r true).1) = dequeAppend h.max_history (g h) (f r)) :
    ∀ (rs : List AirQualityReading) (h : DataHistory),
      g (recordMany h rs) = List.foldl (dequeAppend h.max_history) (g h) (rs.map f) := by
  intro rs
  induction rs with
  | nil => intro h; simp [recordMany]
  | cons r rs ih =>
    intro h
    have hrec : recordMany h (r :: rs) = recordMany ((h.add_reading r true).1) rs := by
      simp [recordMany]
    rw [hrec, ih ((h.add_reading r true).1), hg, add_reading_max_history]
    simp [List.foldl_cons]

/-- Per-field content of `recordAll`: the deque equals the most recent
`cap` inserted field values. -/
lemma recordAll_field {α : Type} (g : DataHistory → List α) (f : AirQualityReading → α)
    (hg : ∀ (h : DataHistory) (r : AirQualityReading),
      g ((h.add_reading r true).1) = dequeAppend h.max_history (g h) (f r))
    (hinit : ∀ cap, g (DataHistory.init cap) = [])
    (cap : ℕ) (rs : List AirQualityReading) :
    g (recordAll cap rs) = (rs.map f).drop (rs.length - cap) := by
  rw [recordAll, recordMany_proj g f hg, hinit,
    foldl_dequeAppend _ _ _ (by simp)]
  simp [DataHistory.init]

/-- Claim C2: after more than `cap` calls to `add_reading` on a fresh
history of capacity `cap` (default 3600), every per-field ring buffer
has length at most `cap` and equals the `cap` most recently inserted
values for that field, in insertion order (oldest evicted first). -/
theorem c2_ring_buffer_retention (cap : ℕ) (rs : List AirQualityReading)
    (hmore : cap < rs.length) :
    ((recordAll cap rs).temperature =
        (rs.map AirQualityReading.temperature).drop (rs.length - cap) ∧
      (recordAll cap rs).temperature.length ≤ cap) ∧
    ((recordAll cap rs).humidity =
        (rs.map AirQualityReading.humidity).drop (rs.length - cap) ∧
      (recordAll cap rs).humidity.length ≤ cap) ∧
    ((recordAll cap rs).co2 =
        (rs.map AirQualityReading.co2).drop (rs.length - cap) ∧
      (recordAll cap rs).co2.length ≤ cap) ∧
    ((recordAll cap rs).tvoc =
        (rs.map AirQualityReading.tvoc).drop (rs.length - cap) ∧
      (recordAll cap rs).tvoc.length ≤ cap) ∧
    ((recordAll cap rs).eco2 =
        (rs.map AirQualityReading.eco2).drop (rs.length - cap) ∧
      (recordAll cap rs).eco2.length ≤ cap) ∧
    ((recordAll cap rs).pm10 =
        (rs.map AirQualityReading.pm10).drop (rs.length - cap) ∧
      (recordAll cap rs).pm10.length ≤ cap) ∧
    ((recordAll cap rs).pm25 =
        (rs.map AirQualityReading.pm25).drop (rs.length - cap) ∧
      (recordAll cap rs).pm25.length ≤ cap) ∧
    ((recordAll cap rs).pm100 =
        (rs.map AirQualityReading.pm100).drop (rs.length - cap) ∧
      (recordAll cap rs).pm100.length ≤ cap) ∧
    ((recordAll cap rs).timestamps =
        (rs.map AirQualityReading.timestamp).drop (rs.length - cap) ∧
      (recordAll cap rs).timestamps.length ≤ cap) := by
  have key : ∀ {α : Type} (g : DataHistory → List α) (f : AirQualityReading → α),
      (∀ (h : DataHistory) (r : AirQualityReading),
        g ((h.add_reading r true).1) = dequeAppend h.max_history (g h) (f r)) →
      (∀ c, g (DataHistory.init c) = []) →
      g (recordAll cap rs) = (rs.map f).drop (rs.length - cap) ∧
        (g (recordAll cap rs)).length ≤ cap := by
    intro α g f hg hi
    have he := recordAll_field g f hg hi cap rs
    refine ⟨he, ?_⟩
    rw [he]
    simp only [List.length_drop, List.length_map]
    omega
  exact ⟨key DataHistory.temperature AirQualityReading.temperature (fun _ _ => rfl) (fun _ => rfl),
    key DataHistory.humidity AirQualityReading.humidity (fun _ _ => rfl) (fun _ => rfl),
    key DataHistory.co2 AirQualityReading.co2 (fun _ _ => rfl) (fun _ => rfl),
    key DataHistory.tvoc AirQualityReading.tvoc (fun _ _ => rfl) (fun _ => rfl),
    key DataHistory.eco2 AirQualityReading.eco2 (fun _ _ => rfl) (fun _ => rfl),
    key DataHistory.pm10 AirQualityReading.pm10 (fun _ _ => rfl) (fun _ => rfl),
    key DataHistory.pm25 AirQualityReading.pm25 (fun _ _ => rfl) (fun _ => rfl),
    key DataHistory.pm100 AirQualityReading.pm100 (fun _ _ => rfl) (fun _ => rfl),
    key DataHistory.timestamps AirQualityReading.timestamp (fun _ _ => rfl) (fun _ => rfl)⟩

/-- A concrete reading used by witnesses. -/
def readingA : AirQualityReading := ⟨21, 45, 400, 5, 400, 1, 2, 3, 0⟩

/-- A second concrete reading used by witnesses. -/
def readingB : AirQualityReading := ⟨22, 50, 800, 7, 450, 4, 5, 6, 1⟩

/-- Witness for C2: capacity 1, two insertions; the CO2 buffer keeps
only the most recent value. -/
theorem c2_ring_buffer_retention_witness :
    1 < [readingA, readingB].length ∧
    (recordAll 1 [readingA, readingB]).co2 =
      ([readingA, readingB].map AirQualityReading.co2).drop
        ([readingA, readingB].length - 1) ∧
    (recordAll 1 [readingA, readingB]).co2 = [800] :=
  ⟨by decide,
    (c2_ring_buffer_retention 1 [readingA, readingB] (by decide)).2.2.1.1,
    by decide⟩

/-- Claim C8: when the CSV write inside `add_reading` fails, the
exception propagates to the caller (second component `true`), yet the
in-memory per-field appends are not rolled back: every ring buffer
equals its appended state, and no CSV row was produced. -/
theorem c8_log_failure_no_rollback (h : DataHistory) (r : AirQualityReading) :
    (h.add_reading r false).2 = true ∧
    (h.add_reading r false).1.temperature =
      dequeAppend h.max_history h.temperature r.temperature ∧
    (h.add_reading r false).1.humidity =
      dequeAppend h.max_history h.humidity r.humidity ∧
    (h.add_reading r false).1.co2 = dequeAppend h.max_history h.co2 r.co2 ∧
    (h.add_reading r false).1.tvoc = dequeAppend h.max_history h.tvoc r.tvoc ∧
    (h.add_reading r false).1.eco2 = dequeAppend h.max_history h.eco2 r.eco2 ∧
    (h.add_reading r false).1.pm10 = dequeAppend h.max_history h.pm10 r.pm10 ∧
    (h.add_reading r false).1.pm25 = dequeAppend h.max_history h.pm25 r.pm25 ∧
    (h.add_reading r false).1.pm100 = dequeAppend h.max_history h.pm100 r.pm100 ∧
    (h.add_reading r false).1.timestamps =
      dequeAppend h.max_history h.timestamps r.timestamp ∧
    (h.add_reading r false).1.csv_rows = h.csv_rows :=
  ⟨rfl, rfl, rfl, rfl, rfl, rfl, rfl, rfl, rfl, rfl, rfl⟩

/-- The threshold table `self.indicators` built in
`AirQualityMonitor.__init__` (`analyse.py` lines 140-156).  Each entry
is `(status, (min_val, max_val))` in dict insertion order;
`float("inf")` is modelled as `none` (larger than every float). -/
def monitorIndicators (indicator_type : String) :
    Option (List (String × ℚ × Option ℚ)) :=
  match indicator_type with
  | "co2" => some [("good", 0, some 800), ("warning", 800, some 1200), ("bad", 1200, none)]
  | "tvoc" => some [("good", 0, some 220), ("warning", 220, some 660), ("bad", 660, none)]
  | "pm25" => some [("good", 0, some 12), ("warning", 12, some 35), ("bad", 35, none)]
  | _ => none

/-- The loop body of `_get_status`: first range with
`min_val <= value < max_val` wins, otherwise `"bad"`. -/
def statusFromRanges (value : ℚ) (ranges : List (String × ℚ × Option ℚ)) : String :=
  match ranges.find? (fun r =>
    decide (r.2.1 ≤ value) &&
      (match r.2.2 with
        | some max_val => decide (value < max_val)
        | none => true)) with
  | some r => r.1
  | none => "bad"

/-- `AirQualityMonitor._get_status` (`analyse.py` lines 170-176). -/
def get_status (value : ℚ) (indicator_type : String) : Option String :=
  (monitorIndicators indicator_type).map (statusFromRanges value)

lemma statusFromRanges_three (v a b : ℚ) (ha : 0 ≤ a) (hab : a ≤ b) :
    (statusFromRanges v [("good", 0, some a), ("warning", a, some b), ("bad", b, none)] = "good"
        ↔ 0 ≤ v ∧ v < a) ∧
    (statusFromRanges v [("good", 0, some a), ("warning", a, some b), ("bad", b, none)] = "warning"
        ↔ a ≤ v ∧ v < b) ∧
    (statusFromRanges v [("good", 0, some a), ("warning", a, some b), ("bad", b, none)] = "bad"
        ↔ v < 0 ∨ b ≤ v) := by
  by_cases h0 : 0 ≤ v
  · by_cases h1 : v < a
    · have hs : statusFromRanges v
          [("good", 0, some a), ("warning", a, some b), ("bad", b, none)] = "good" := by
        simp [statusFromRanges, List.find?, h0, h1]
      rw [hs]
      refine ⟨by simp [h0, h1], ?_, ?_⟩
      · constructor
        · intro hcontra; exact absurd hcontra (by simp)
        · rintro ⟨hav, -⟩; exfalso; linarith
      · constructor
        · intro hcontra; exact absurd hcontra (by simp)
        · rintro (hneg | hbv) <;> exfalso <;> linarith
    · by_cases h2 : v < b
      · have hav : a ≤ v := not_lt.mp h1
        have hs : statusFromRanges v
            [("good", 0, some a), ("warning", a, some b), ("bad", b, none)] = "warning" := by
          simp [statusFromRanges, List.find?, h0, h1, hav, h2]
        rw [hs]
        refine ⟨?_, by simp [hav, h2], ?_⟩
        · constructor
          · intro hcontra; exact absurd hcontra (by simp)
          · rintro ⟨-, hva⟩; exfalso; linarith
        · constructor
          · intro hcontra; exact absurd hcontra (by simp)
          · rintro (hneg | hbv) <;> exfalso <;> linarith
      · have hav : a ≤ v := not_lt.mp h1
        have hbv : b ≤ v := not_lt.mp h2
        have hs : statusFromRanges v
            [("good", 0, some a), ("warning", a, some b), ("bad", b, none)] = "bad" := by
          simp [statusFromRanges, List.find?, h0, h1, hav, h2, hbv]
        rw [hs]
        refine ⟨?_, ?_, by simp [hbv]⟩
        · constructor
          · intro hcontra; exact absurd hcontra (by simp)
          · rintro ⟨-, hva⟩; exfalso; linarith
        · constructor
          · intro hcontra; exact absurd hcontra (by simp)
          · rintro ⟨-, hvb⟩; exfalso; linarith
  · have hv0 : v < 0 := not_le.mp h0
    have h1 : ¬ a ≤ v := by intro hc; linarith
    have h2 : ¬ b ≤ v := by intro hc; linarith
    have hs : statusFromRanges v
        [("good", 0, some a), ("warning", a, some b), ("bad", b, none)] = "bad" := by
      simp [statusFromRanges, List.find?, h0, h1, h2]
    rw [hs]
    refine ⟨?_, ?_, by simp [hv0]⟩
    · constructor
      · intro hcontra; exact absurd hcontra (by simp)
      · rintro ⟨hc, -⟩; exact absurd hc h0
    · constructor
      · intro hcontra; exact absurd hcontra (by simp)
      · rintro ⟨hc, -⟩; exact absurd hc h1

/-- Claim C4: status classification is total and exclusive with
half-open `[low, high)` intervals; a boundary value resolves to the
higher interval, the final `bad` interval extends to infinity, and a
value matching no configured interval (a negative value) returns
`bad` — for each of the three configured indicators. -/
theorem c4_get_status_total_halfopen (v : ℚ) :
    ((get_status v "co2" = some "good" ↔ 0 ≤ v ∧ v < 800) ∧
      (get_status v "co2" = some "warning" ↔ 800 ≤ v ∧ v < 1200) ∧
      (get_status v "co2" = some "bad" ↔ v < 0 ∨ 1200 ≤ v)) ∧
    ((get_status v "tvoc" = some "good" ↔ 0 ≤ v ∧ v < 220) ∧
      (get_status v "tvoc" = some "warning" ↔ 220 ≤ v ∧ v < 660) ∧
      (get_status v "tvoc" = some "bad" ↔ v < 0 ∨ 660 ≤ v)) ∧
    ((get_status v "pm25" = some "good" ↔ 0 ≤ v ∧ v < 12) ∧
      (get_status v "pm25" = some "warning" ↔ 12 ≤ v ∧ v < 35) ∧
      (get_status v "pm25" = some "bad" ↔ v < 0 ∨ 35 ≤ v)) := by
  have hco2 := statusFromRanges_three v 800 1200 (by norm_num) (by norm_num)
  have htvoc := statusFromRanges_three v 220 660 (by norm_num) (by norm_num)
  have hpm := statusFromRanges_three v 12 35 (by norm_num) (by norm_num)
  have e1 : get_status v "co2" =
      some (statusFromRanges v
        [("good", 0, some 800), ("warning", 800, some 1200), ("bad", 1200, none)]) := rfl
  have e2 : get_status v "tvoc" =
      some (statusFromRanges v
        [("good", 0, some 220), ("warning", 220, some 660), ("bad", 660, none)]) := rfl
  have e3 : get_status v "pm25" =
      some (statusFromRanges v
        [("good", 0, some 12), ("warning", 12, some 35), ("bad", 35, none)]) := rfl
  rw [e1, e2, e3]
  simp only [Option.some.injEq]
  exact ⟨hco2, htvoc, hpm⟩

/-- The three arrow shapes `_draw_trend_arrow` can draw. -/
inductive Trend where
  | flat
  | rising
  | falling
deriving DecidableEq

/-- `AirQualityMonitor._draw_trend_arrow` (`analyse.py` lines 178-206),
reduced to which arrow is drawn: nothing when fewer than 2 history
values; otherwise `recent_avg = sum(list(history)[-5:]) / 5` (the
divisor is the constant 5 even when fewer than 5 values exist), flat
when `|current - recent_avg| < threshold`, rising when
`current > recent_avg`, falling otherwise. -/
def draw_trend_arrow (current : ℚ) (history : List ℚ) (threshold : ℚ) : Option Trend :=
  if history.length < 2 then none
  else
    let recent_avg := (history.drop (history.length - 5)).sum / 5
    if |current - recent_avg| < threshold then some .flat
    else if recent_avg < current then some .rising
    else some .falling

/-- Reference definition written from the spec's words: compare the
current value with the mean of the last 5 recorded values of the field
(when fewer than 5 are recorded, the mean of those actually recorded),
flat below the absolute threshold regardless of sign, rising when the
current value exceeds the mean, falling otherwise. -/
def trendSpecRef (current : ℚ) (history : List ℚ) (threshold : ℚ) : Option Trend :=
  if history.length < 2 then none
  else
    let lastFive := history.drop (history.length - 5)
    let mean := lastFive.sum / (lastFive.length : ℚ)
    if |current - mean| < threshold then some .flat
    else if mean < current then some .rising
    else some .falling

/-- Counterexample to claim C5 as stated: with history `[10, 10]` (two
recorded values) and current value `10`, the code computes
`recent_avg = 20 / 5 = 4` and draws a rising arrow, while the mean of
the recorded values is `10`, whose distance to the current value is `0`,
i.e. flat under the claimed classification. -/
theorem c5_counterexample :
    draw_trend_arrow 10 [10, 10] 5 = some Trend.rising ∧
    trendSpecRef 10 [10, 10] 5 = some Trend.flat ∧
    draw_trend_arrow 10 [10, 10] 5 ≠ trendSpecRef 10 [10, 10] 5 := by
  have h1 : draw_trend_arrow 10 [10, 10] 5 = some Trend.rising := by
    norm_num [draw_trend_arrow]
  have h2 : trendSpecRef 10 [10, 10] 5 = some Trend.flat := by
    norm_num [trendSpecRef]
  refine ⟨h1, h2, ?_⟩
  rw [h1, h2]
  simp

/-- Claim C5 (amended): for a history with at least 5 recorded values,
the trend indicator agrees with the spec's classification against the
mean of the last 5 recorded values — flat exactly when the absolute
difference is below the threshold, rising when the current value
exceeds the mean, falling otherwise.  (With 2 to 4 recorded values the
code still divides the sum by 5, so the comparison value is not the
mean of the recorded values.) -/
theorem c5_trend_mean_of_last_five (current : ℚ) (history : List ℚ) (threshold : ℚ)
    (hlen : 5 ≤ history.length) :
    draw_trend_arrow current history threshold = trendSpecRef current history threshold := by
  unfold draw_trend_arrow trendSpecRef
  have hnot : ¬ history.length < 2 := by omega
  have hdroplen : (history.drop (history.length - 5)).length = 5 := by
    simp only [List.length_drop]
    omega
  simp only [if_neg hnot, hdroplen]
  norm_num

/-- Witness for C5: a five-element history with mean 3 and current
value 3 is classified flat by both the code and the reference. -/
theorem c5_trend_mean_of_last_five_witness :
    5 ≤ ([1, 2, 3, 4, 5] : List ℚ).length ∧
    draw_trend_arrow 3 [1, 2, 3, 4, 5] 5 = trendSpecRef 3 [1, 2, 3, 4, 5] 5 ∧
    draw_trend_arrow 3 [1, 2, 3, 4, 5] 5 = some Trend.flat :=
  ⟨by decide, c5_trend_mean_of_last_five 3 [1, 2, 3, 4, 5] 5 (by decide),
    by norm_num [draw_trend_arrow]⟩

/-- Outcome of one external driver call: either a value or a raised
exception. -/
inductive SensorCall (α : Type) where
  | ok (val : α)
  | err
deriving DecidableEq

/-- The tuple returned by `scd41.measure()` when it is not `None`. -/
structure ScdMeasurement where
  co2 : ℤ
  temperature : ℚ
  humidity : ℚ
  timestamp : ℚ
deriving DecidableEq

/-- The object returned by `sgp30.get_air_quality()`. -/
structure SgpAirQuality where
  total_voc : ℤ
  equivalent_co2 : ℤ
deriving DecidableEq

/-- The object returned by `pms5003.read()` (the three `pm_ug_per_m3`
concentrations). -/
structure PmsData where
  pm10 : ℚ
  pm25 : ℚ
  pm100 : ℚ
deriving DecidableEq

/-- The external-world outcomes one monitoring cycle can encounter. -/
structure CycleEnv where
  sgp30_get_air_quality : SensorCall SgpAirQuality
  scd41_measure : SensorCall (Option ScdMeasurement)
  pms5003_read : SensorCall PmsData
  set_humidity_ok : Bool
  restart_ok : Bool
deriving DecidableEq

/-- Observable effects of one iteration of a monitoring loop. -/
structure CycleOutcome where
  logged_monitoring_error : Bool
  slept_backoff : Bool
  restart_attempted : Bool
  logged_restart_error : Bool
  recorded : Option AirQualityReading
  raised : Bool
deriving DecidableEq

/-- Whether the cycle hits any failure: a sensor read raises, the SCD41
returns `None` (the explicit `ValueError`), or the `set_humidity`
compensation command raises. -/
def cycleFails (env : CycleEnv) : Bool :=
  match env.sgp30_get_air_quality, env.scd41_measure, env.pms5003_read with
  | .ok _, .ok (some _), .ok _ => !env.set_humidity_ok
  | _, _, _ => true

/-- Whether the CO2/temperature/humidity sensor itself failed this
cycle (read raised, or returned no data). -/
def scd41Fails (env : CycleEnv) : Bool :=
  match env.scd41_measure with
  | .ok (some _) => false
  | _ => true

/-- The `except` branch of `analyse.py`'s `_monitoring_loop` (lines
366-372): print the error, `time.sleep(1)`, then try
`self.scd41.start_periodic_measurement()` inside its own
`try`/`except`.  This branch runs after every failure, whichever step
raised. -/
def analyseFailureOutcome (env : CycleEnv) : CycleOutcome :=
  { logged_monitoring_error := true
    slept_backoff := true
    restart_attempted := true
    logged_restart_error := !env.restart_ok
    recorded := none
    raised := false }

/-- The `except` branch of `monitor.py`'s `_monitoring_loop` (lines
180-182): print the error and `time.sleep(1)` only — no restart. -/
def monitorFailureOutcome : CycleOutcome :=
  { logged_monitoring_error := true
    slept_backoff := true
    restart_attempted := false
    logged_restart_error := false
    recorded := none
    raised := false }

/-- The reading assembled by a successful cycle. -/
def assembleReading (air : SgpAirQuality) (m : ScdMeasurement) (pms : PmsData) :
    AirQualityReading :=
  { temperature := m.temperature
    humidity := m.humidity
    co2 := m.co2
    tvoc := air.total_voc
    eco2 := air.equivalent_co2
    pm10 := pms.pm10
    pm25 := pms.pm25
    pm100 := pms.pm100
    timestamp := m.timestamp }

/-- One iteration of `analyse.py`'s `_monitoring_loop` (lines 328-372):
read the three sensors, raise on a `None` SCD41 result, send the
humidity compensation, record the reading; any exception is caught by
the `except` branch (`analyseFailureOutcome`). -/
def monitoringCycleAnalyse (env : CycleEnv) : CycleOutcome :=
  match env.sgp30_get_air_quality, env.scd41_measure, env.pms5003_read with
  | .ok air, .ok (some m), .ok pms =>
    if env.set_humidity_ok then
      { logged_monitoring_error := false
        slept_backoff := false
        restart_attempted := false
        logged_restart_error := false
        recorded := some (assembleReading air m pms)
        raised := false }
    else analyseFailureOutcome env
  | _, _, _ => analyseFailureOutcome env

/-- One iteration of `monitor.py`'s `_monitoring_loop` (lines 147-182):
same body, but the `except` branch only logs and sleeps. -/
def monitoringCycleMonitor (env : CycleEnv) : CycleOutcome :=
  match env.sgp30_get_air_quality, env.scd41_measure, env.pms5003_read with
  | .ok air, .ok (some m), .ok pms =>
    if env.set_humidity_ok then
      { logged_monitoring_error := false
        slept_backoff := false
        restart_attempted := false
        logged_restart_error := false
        recorded := some (assembleReading air m pms)
        raised := false }
    else monitorFailureOutcome
  | _, _, _ => monitorFailureOutcome

/-- A cycle in which the SCD41 returns no data and everything else
succeeds. -/
def envNoData : CycleEnv :=
  { sgp30_get_air_quality := .ok ⟨5, 400⟩
    scd41_measure := .ok none
    pms5003_read := .ok ⟨1, 2, 3⟩
    set_humidity_ok := true
    restart_ok := true }

/-- Counterexample to claim C3 as stated: in `monitor.py`'s monitoring
loop, a cycle whose CO2/temperature/humidity sensor returns no data is
logged and followed by the 1-second backoff, but no restart of the
sensor's periodic-measurement mode is ever attempted. -/
theorem c3_counterexample :
    cycleFails envNoData = true ∧
    scd41Fails envNoData = true ∧
    (monitoringCycleMonitor envNoData).restart_attempted = false := by
  refine ⟨rfl, rfl, rfl⟩

/-- Claim C3 (amended): whenever any step of the acquisition cycle
fails, both loops log the failure and sleep the fixed 1-second backoff,
and no failure propagates out of either loop; `analyse.py`'s loop
additionally attempts to restart the SCD41's periodic-measurement mode
after every failure (not only SCD41 failures, and with the restart's
own failure caught and logged), whereas `monitor.py`'s loop never
attempts a restart. -/
theorem c3_failure_handling :
    (∀ env : CycleEnv, cycleFails env = true →
      (monitoringCycleAnalyse env).logged_monitoring_error = true ∧
      (monitoringCycleAnalyse env).slept_backoff = true ∧
      (monitoringCycleAnalyse env).restart_attempted = true ∧
      (monitoringCycleAnalyse env).logged_restart_error = !env.restart_ok ∧
      (monitoringCycleMonitor env).logged_monitoring_error = true ∧
      (monitoringCycleMonitor env).slept_backoff = true ∧
      (monitoringCycleMonitor env).restart_attempted = false) ∧
    (∀ env : CycleEnv,
      (monitoringCycleAnalyse env).raised = false ∧
      (monitoringCycleMonitor env).raised = false) := by
  constructor
  · intro env hfail
    rcases env with ⟨air, scd, pms, hum, rst⟩
    rcases air with a | _ <;> rcases scd with (_ | m) | _ <;> rcases pms with p | _ <;>
      cases hum <;>
      simp_all [cycleFails, monitoringCycleAnalyse, monitoringCycleMonitor,
        analyseFailureOutcome, monitorFailureOutcome]
  · intro env
    rcases env with ⟨air, scd, pms, hum, rst⟩
    rcases air with a | _ <;> rcases scd with (_ | m) | _ <;> rcases pms with p | _ <;>
      cases hum <;>
      simp_all [monitoringCycleAnalyse, monitoringCycleMonitor,
        analyseFailureOutcome, monitorFailureOutcome]

/-- A cycle in which only the particulate sensor raises. -/
def envPmsErr : CycleEnv :=
  { sgp30_get_air_quality := .ok ⟨5, 400⟩
    scd41_measure := .ok (some ⟨400, 21, 45, 0⟩)
    pms5003_read := .err
    set_humidity_ok := true
    restart_ok := true }

/-- Witness for C3: a failing cycle (particulate sensor raises) is
logged, backed off, restarted in `analyse.py`, not restarted in
`monitor.py`, and raises nothing. -/
theorem c3_failure_handling_witness :
    cycleFails envPmsErr = true ∧
    (monitoringCycleAnalyse envPmsErr).logged_monitoring_error = true ∧
    (monitoringCycleAnalyse envPmsErr).slept_backoff = true ∧
    (monitoringCycleAnalyse envPmsErr).restart_attempted = true ∧
    (monitoringCycleMonitor envPmsErr).restart_attempted = false ∧
    (monitoringCycleAnalyse envPmsErr).raised = false ∧
    (monitoringCycleMonitor envPmsErr).raised = false := by
  have h := c3_failure_handling.1 envPmsErr (by rfl)
  have h2 := c3_failure_handling.2 envPmsErr
  exact ⟨rfl, h.1, h.2.1, h.2.2.1, h.2.2.2.2.2.2, h2.1, h2.2⟩

/-- Page selection in `DisplayManager.update` (`display.py` line 151):
`page = int(time.time() / 4) % 3`. -/
def displayUpdatePage (now : ℚ) : ℤ :=
  truncToInt (now / 4) % 3

/-- Page selection in `analyse.py`'s `_display_loop` (line 306):
`page = int(time.time() / 6) % 4`. -/
def analyseDisplayPage (now : ℚ) : ℤ :=
  truncToInt (now / 6) % 4

/-- The spec's page-selection formula:
`floor(now / page_seconds) mod page_count`. -/
def pageIndexSpec (page_seconds page_count : ℕ) (now : ℚ) : ℤ :=
  ⌊now / (page_seconds : ℚ)⌋ % (page_count : ℤ)

/-- Claim C7: page selection is a pure function of wall-clock time equal
to `floor(now / page_seconds) mod page_count` at each code site's
configured constants (4 s / 3 pages in `display.py`, 6 s / 4 pages in
`analyse.py`), and the formula at `page_seconds = 6`, `page_count = 3`
sends `t = 0` to page 0, `t = 6` to page 1 and `t = 17` to page 2. -/
theorem c7_page_selection :
    (∀ now : ℚ, 0 ≤ now →
      displayUpdatePage now = pageIndexSpec 4 3 now ∧
      analyseDisplayPage now = pageIndexSpec 6 4 now) ∧
    pageIndexSpec 6 3 0 = 0 ∧ pageIndexSpec 6 3 6 = 1 ∧ pageIndexSpec 6 3 17 = 2 := by
  refine ⟨?_, ?_, ?_, ?_⟩
  · intro now hnow
    have h4 : (0:ℚ) ≤ now / 4 := by positivity
    have h6 : (0:ℚ) ≤ now / 6 := by positivity
    constructor
    · unfold displayUpdatePage pageIndexSpec truncToInt
      rw [if_pos h4]
      norm_num
    · unfold analyseDisplayPage pageIndexSpec truncToInt
      rw [if_pos h6]
      norm_num
  · unfold pageIndexSpec; norm_num
  · unfold pageIndexSpec; norm_num
  · unfold pageIndexSpec
    have h : ⌊(17:ℚ) / ((6:ℕ) : ℚ)⌋ = 2 := by
      rw [Int.floor_eq_iff]
      norm_num
    rw [h]
    norm_num

/-- Witness for C7: the equalities hold at `now = 17`. -/
theorem c7_page_selection_witness :
    (0:ℚ) ≤ 17 ∧
    displayUpdatePage 17 = pageIndexSpec 4 3 17 ∧
    analyseDisplayPage 17 = pageIndexSpec 6 4 17 :=
  ⟨by norm_num, (c7_page_selection.1 17 (by norm_num)).1,
    (c7_page_selection.1 17 (by norm_num)).2⟩

/-- The fill width computed by `_draw_progress_bar` (`analyse.py` line
220): `int((min(value, max_value) / max_value) * width)`. -/
def fill_width (width : ℤ) (value max_value : ℚ) : ℤ :=
  truncToInt (min value max_value / max_value * (width : ℚ))

/-- `AirQualityMonitor._draw_progress_bar` (`analyse.py` lines
208-224), reduced to its geometry: the outline rectangle
`(x, y, x + width, y + bar_height)` with `bar_height = 4`, and the fill
rectangle `(x + 1, y + 1, x + fill_width - 1, y + bar_height - 1)`,
drawn only when `fill_width > 0`. -/
def draw_progress_bar (x y width : ℤ) (value max_value : ℚ) :
    (ℤ × ℤ × ℤ × ℤ) × Option (ℤ × ℤ × ℤ × ℤ) :=
  ((x, y, x + width, y + 4),
    if 0 < fill_width width value max_value then
      some (x + 1, y + 1, x + fill_width width value max_value - 1, y + 4 - 1)
    else none)

/-- Claim C10: for every input value (negative or above `max_value`
included), the computed fill width never exceeds the bar width, and the
fill rectangle, drawn only for strictly positive fill width, lies
strictly inside the gauge outline. -/
theorem c10_progress_bar_bounded (x y width : ℤ) (value max_value : ℚ)
    (hmax : 0 < max_value) (hw : 0 ≤ width) :
    fill_width width value max_value ≤ width ∧
    (∀ fx0 fy0 fx1 fy1,
      (draw_progress_bar x y width value max_value).2 = some (fx0, fy0, fx1, fy1) →
      0 < fill_width width value max_value ∧
      x ≤ fx0 ∧ y ≤ fy0 ∧ fx1 < x + width ∧ fy1 < y + 4) := by
  have hwq : (0:ℚ) ≤ (width : ℚ) := by exact_mod_cast hw
  have hq : min value max_value / max_value * (width : ℚ) ≤ (width : ℚ) := by
    have h1 : min value max_value / max_value ≤ 1 := by
      rw [div_le_one hmax]
      exact min_le_right _ _
    calc min value max_value / max_value * (width : ℚ)
        ≤ 1 * (width : ℚ) := mul_le_mul_of_nonneg_right h1 hwq
      _ = (width : ℚ) := one_mul _
  have hfw : fill_width width value max_value ≤ width := by
    unfold fill_width truncToInt
    split
    · have hfl := Int.floor_le_floor hq
      rw [Int.floor_intCast] at hfl
      exact hfl
    · have hle : min value max_value / max_value * (width : ℚ) ≤ 0 :=
        le_of_lt (not_le.mp (by assumption))
      have hcl : ⌈min value max_value / max_value * (width : ℚ)⌉ ≤ 0 :=
        Int.ceil_le.mpr (by exact_mod_cast hle)
      omega
  refine ⟨hfw, ?_⟩
  intro fx0 fy0 fx1 fy1 hdraw
  simp only [draw_progress_bar] at hdraw
  split at hdraw
  · simp only [Option.some.injEq, Prod.mk.injEq] at hdraw
    obtain ⟨h0, h1, h2, h3⟩ := hdraw
    subst h0 h1 h2 h3
    refine ⟨by assumption, by omega, by omega, by omega, by omega⟩
  · exact absurd hdraw (by simp)

/-- Witness for C10: bar at `x = 2, y = 45`, width 124, value 150
against maximum 100 — the fill is capped at the full bar and stays
inside the outline. -/
theorem c10_progress_bar_bounded_witness :
    (0:ℚ) < 100 ∧ (0:ℤ) ≤ 124 ∧
    fill_width 124 150 100 ≤ 124 ∧
    ((draw_progress_bar 2 45 124 150 100).2 = some (3, 46, 125, 48) →
      0 < fill_width 124 150 100 ∧
      2 ≤ (3:ℤ) ∧ 45 ≤ (46:ℤ) ∧ (125:ℤ) < 2 + 124 ∧ (48:ℤ) < 45 + 4) := by
  have h := c10_progress_bar_bounded 2 45 124 150 100 (by norm_num) (by norm_num)
  exact ⟨by norm_num, by norm_num, h.1, fun hd => h.2 3 46 125 48 hd⟩

/-- One row of `DisplayManager.indicators` (`display.py` lines 13-38). -/
structure DisplayIndicator where
  min : ℝ
  max : ℝ
  optimal : ℝ × ℝ
  warning : ℝ × ℝ
  unit : String
  name : String

/-- The `"co2"` row of `DisplayManager.indicators`. -/
noncomputable def co2Indicator : DisplayIndicator :=
  ⟨400, 2000, (400, 1000), (1000, 1500), "PPM", "CO2"⟩

/-- The `"tvoc"` row of `DisplayManager.indicators`. -/
noncomputable def tvocIndicator : DisplayIndicator :=
  ⟨0, 1000, (0, 300), (300, 600), "PPB", "TVOC"⟩

/-- The `"pm2.5"` row of `DisplayManager.indicators`. -/
noncomputable def pm25Indicator : DisplayIndicator :=
  ⟨0, 50, (0, 12), (12, 35), "UG/M3", "PM2.5"⟩

/-- Lookup in the `DisplayManager.indicators` dict; a missing key
raises `KeyError`, modelled as `none`. -/
noncomputable def displayIndicators : String → Option DisplayIndicator
  | "co2" => some co2Indicator
  | "tvoc" => some tvocIndicator
  | "pm2.5" => some pm25Indicator
  | _ => none

/-- `DisplayManager._normalize_value` (`display.py` lines 88-107):
look up the ranges (KeyError on a missing key, modelled as `none`),
clamp the value into `[min, max]`, then logarithmic normalization for
CO2 and linear normalization otherwise. -/
noncomputable def normalize_value (value : ℝ) (indicator_type : String) : Option ℝ :=
  match displayIndicators indicator_type with
  | none => none
  | some ranges =>
    let v := max (min value ranges.max) ranges.min
    if indicator_type = "co2" then
      some ((Real.log v - Real.log ranges.min) / (Real.log ranges.max - Real.log ranges.min))
    else
      some ((v - ranges.min) / (ranges.max - ranges.min))

lemma normalize_value_co2 (value : ℝ) :
    normalize_value value "co2" =
      some ((Real.log (max (min value co2Indicator.max) co2Indicator.min) -
          Real.log co2Indicator.min) /
        (Real.log co2Indicator.max - Real.log co2Indicator.min)) := rfl

lemma normalize_value_tvoc (value : ℝ) :
    normalize_value value "tvoc" =
      some ((max (min value tvocIndicator.max) tvocIndicator.min - tvocIndicator.min) /
        (tvocIndicator.max - tvocIndicator.min)) := rfl

lemma normalize_value_pm25 (value : ℝ) :
    normalize_value value "pm2.5" =
      some ((max (min value pm25Indicator.max) pm25Indicator.min - pm25Indicator.min) /
        (pm25Indicator.max - pm25Indicator.min)) := rfl

/-- Claim C9: for every real input and each of the three configured
indicator types, the gauge normalization lies in `[0, 1]`; and the
argument the CO2 branch passes to the logarithm — the clamped value —
is always at least 400, never zero or negative. -/
theorem c9_normalize_in_unit_interval :
    (∀ value x : ℝ, normalize_value value "co2" = some x → 0 ≤ x ∧ x ≤ 1) ∧
    (∀ value x : ℝ, normalize_value value "tvoc" = some x → 0 ≤ x ∧ x ≤ 1) ∧
    (∀ value x : ℝ, normalize_value value "pm2.5" = some x → 0 ≤ x ∧ x ≤ 1) ∧
    (∀ value : ℝ, 400 ≤ max (min value co2Indicator.max) co2Indicator.min) := by
  have hlin : ∀ (lo hi value : ℝ), lo < hi →
      0 ≤ (max (min value hi) lo - lo) / (hi - lo) ∧
      (max (min value hi) lo - lo) / (hi - lo) ≤ 1 := by
    intro lo hi value hlt
    have hv1 : lo ≤ max (min value hi) lo := le_max_right _ _
    have hv2 : max (min value hi) lo ≤ hi :=
      max_le (min_le_right _ _) (le_of_lt hlt)
    constructor
    · apply div_nonneg (by linarith) (by linarith)
    · rw [div_le_one (by linarith)]
      linarith
  refine ⟨?_, ?_, ?_, ?_⟩
  · intro value x h
    rw [normalize_value_co2, Option.some.injEq] at h
    subst h
    have hmin : co2Indicator.min = (400:ℝ) := rfl
    have hmax : co2Indicator.max = (2000:ℝ) := rfl
    rw [hmin, hmax]
    set v := max (min value (2000:ℝ)) (400:ℝ) with hv
    have h400 : (0:ℝ) < 400 := by norm_num
    have hv1 : (400:ℝ) ≤ v := le_max_right _ _
    have hv2 : v ≤ 2000 := max_le (min_le_right _ _) (by norm_num)
    have hlog1 : Real.log 400 ≤ Real.log v := Real.log_le_log h400 hv1
    have hlog2 : Real.log v ≤ Real.log 2000 := Real.log_le_log (by linarith) hv2
    have hdenom : Real.log 400 < Real.log 2000 := Real.log_lt_log h400 (by norm_num)
    constructor
    · apply div_nonneg (by linarith) (by linarith)
    · rw [div_le_one (by linarith)]
      linarith
  · intro value x h
    rw [normalize_value_tvoc, Option.some.injEq] at h
    subst h
    exact hlin tvocIndicator.min tvocIndicator.max value (by norm_num [tvocIndicator])
  · intro value x h
    rw [normalize_value_pm25, Option.some.injEq] at h
    subst h
    exact hlin pm25Indicator.min pm25Indicator.max value (by norm_num [pm25Indicator])
  · intro value
    exact le_max_right _ _

/-- Witness for C9: the TVOC gauge at value 250 normalizes to 1/4,
which lies in `[0, 1]`. -/
theorem c9_normalize_in_unit_interval_witness :
    (0:ℝ) ≤ 1/4 ∧ (1/4:ℝ) ≤ 1 :=
  c9_normalize_in_unit_interval.2.1 250 (1/4) (by
    rw [normalize_value_tvoc, Option.some.injEq]
    norm_num [tvocIndicator])

lemma exp_half_y_lower : (2.0147120 : ℝ) ≤ Real.exp (6167 / 8804) := by
  have hsum := Real.sum_le_exp_of_nonneg
    (x := (6167:ℝ)/8804) (by norm_num) 8
  refine le_trans ?_ hsum
  rw [Finset.sum_range_succ, Finset.sum_range_succ, Finset.sum_range_succ,
    Finset.sum_range_succ, Finset.sum_range_succ, Finset.sum_range_succ,
    Finset.sum_range_succ, Finset.sum_range_succ, Finset.sum_range_zero]
  norm_num [Nat.factorial]

lemma exp_half_y_upper : Real.exp (6167 / 8804) ≤ (2.0147137 : ℝ) := by
  have hb := Real.exp_bound'
    (x := (6167:ℝ)/8804) (by norm_num) (by norm_num) (n := 8) (by norm_num)
  refine le_trans hb ?_
  rw [Finset.sum_range_succ, Finset.sum_range_succ, Finset.sum_range_succ,
    Finset.sum_range_succ, Finset.sum_range_succ, Finset.sum_range_succ,
    Finset.sum_range_succ, Finset.sum_range_succ, Finset.sum_range_zero]
  norm_num [Nat.factorial]

lemma exp_y_bounds :
    (2.0147120 : ℝ) * 2.0147120 ≤ Real.exp (6167 / 4402) ∧
    Real.exp (6167 / 4402) ≤ (2.0147137 : ℝ) * 2.0147137 := by
  have hsplit : (6167:ℝ)/4402 = 6167/8804 + 6167/8804 := by norm_num
  rw [hsplit, Real.exp_add]
  have ha := exp_half_y_lower
  have hb := exp_half_y_upper
  have hpos : (0:ℝ) < Real.exp (6167/8804) := Real.exp_pos _
  constructor
  · exact mul_le_mul ha ha (by norm_num) hpos.le
  · exact mul_le_mul hb hb hpos.le (by norm_num)

/-- The code's absolute-humidity value at temperature 21.0 and relative
humidity 45.0 is exactly 2105 (the real value is ≈ 2105.875). -/
lemma calculate_absolute_humidity_at_21_45 :
    calculate_absolute_humidity 21 45 = 2105 := by
  show truncToInt ((45 * (6.112 * Real.exp ((17.62 * 21) / (243.12 + 21))) * 2.1674) /
    (21 + 273.15) * 256) = 2105
  have harg : (17.62 * (21:ℝ)) / (243.12 + 21) = 6167 / 4402 := by norm_num
  rw [harg]
  have hlo := exp_y_bounds.1
  have hhi := exp_y_bounds.2
  have hk : (0:ℝ) ≤ 45 * 6.112 * 2.1674 * 256 / (21 + 273.15) := by norm_num
  have hv_eq : (45 * (6.112 * Real.exp ((6167:ℝ)/4402)) * 2.1674) / (21 + 273.15) * 256 =
      45 * 6.112 * 2.1674 * 256 / (21 + 273.15) * Real.exp ((6167:ℝ)/4402) := by
    ring
  have hv_lo : (2105:ℝ) ≤
      (45 * (6.112 * Real.exp ((6167:ℝ)/4402)) * 2.1674) / (21 + 273.15) * 256 := by
    rw [hv_eq]
    calc (2105:ℝ)
        ≤ 45 * 6.112 * 2.1674 * 256 / (21 + 273.15) * (2.0147120 * 2.0147120) := by
          norm_num
      _ ≤ 45 * 6.112 * 2.1674 * 256 / (21 + 273.15) * Real.exp ((6167:ℝ)/4402) :=
          mul_le_mul_of_nonneg_left hlo hk
  have hv_hi :
      (45 * (6.112 * Real.exp ((6167:ℝ)/4402)) * 2.1674) / (21 + 273.15) * 256 <
        (2106:ℝ) := by
    rw [hv_eq]
    calc 45 * 6.112 * 2.1674 * 256 / (21 + 273.15) * Real.exp ((6167:ℝ)/4402)
        ≤ 45 * 6.112 * 2.1674 * 256 / (21 + 273.15) * (2.0147137 * 2.0147137) :=
          mul_le_mul_of_nonneg_left hhi hk
      _ < 2106 := by norm_num
  unfold truncToInt
  rw [if_pos (by linarith)]
  rw [Int.floor_eq_iff]
  constructor
  · push_cast
    linarith
  · push_cast
    linarith

/-- Counterexample to claim C6 as stated: at temperature 21.0 and
relative humidity 45.0 the code returns the fixed-point value 2105, not
approximately 1698 — the gap of 407 fixed-point units (≈ 1.6 g/m³) is
far beyond floating-point tolerance. -/
theorem c6_counterexample :
    calculate_absolute_humidity 21 45 = 2105 ∧
    100 < |calculate_absolute_humidity 21 45 - 1698| := by
  refine ⟨calculate_absolute_humidity_at_21_45, ?_⟩
  rw [calculate_absolute_humidity_at_21_45]
  decide

/-- Claim C6 (amended): applying the absolute-humidity computation to
temperature 21.0 and humidity 45.0 yields the 8.8 fixed-point integer
2105 (exact real value ≈ 2105.875, i.e. ≈ 8.23 g/m³), and this equals
the reference implementation of the stated formula at the same input;
the spec's example figure of ≈ 1698 is wrong. -/
theorem c6_abs_humidity_at_example :
    calculate_absolute_humidity 21 45 = 2105 ∧
    calculate_absolute_humidity 21 45 = absHumiditySpecRef 21 45 :=
  ⟨calculate_absolute_humidity_at_21_45, calculate_absolute_humidity_eq_specRef 21 45⟩

end AirAnalyser
